import Mathlib

/-!
# SensorService (openauto) — shallow embedding and verification

Source: `src/autoapp/Service/SensorService.cpp`.

The service runs on one strand, so every handler body is an atomic step.  A step is a
function from the service state (and the values the environment returns to it) to the
new state together with the list of calls it makes on its collaborators (channel, timer,
libgps), in program order.

Doubles are modelled exactly: a finite binary64 value is a pair `m, e` denoting
`m * 2^e`, and every arithmetic operation rounds the exact result to nearest, ties to
even.  The model is proved to return a nearest double for conversion of a rational,
product and square root, and the exact truncation for the conversion to an integer.

Three things the source leaves to its surroundings are parameters: the constants of
gps.h (`GpsApi`), the integer types of the wire schema (`GPSLocationSchema`), and the
double a build computes for `pow(x, 2) + pow(y, 2)` (`Build`).
-/

namespace SensorService

/-! ## binary64 arithmetic -/

/-- Loop computing the position of the highest set bit; `fuel` bounds the iterations. -/
def log2Loop : Nat → Nat → Nat
  | 0, _ => 0
  | fuel + 1, n => if n < 2 then 0 else log2Loop fuel (n / 2) + 1

/-- Floor of the base-2 logarithm (0 for 0). -/
def ilog2 (n : Nat) : Nat := log2Loop n n

/-- Bitwise integer square root: tries the bits `b-1, ..., 0` from the top. -/
def sqrtLoop (n : Nat) : Nat → Nat → Nat
  | 0, r => r
  | b + 1, r => sqrtLoop n b (if (r + 2 ^ b) * (r + 2 ^ b) ≤ n then r + 2 ^ b else r)

/-- Floor of the square root. -/
def isqrt (n : Nat) : Nat := sqrtLoop n (ilog2 n / 2 + 1) 0

/-- An IEEE-754 binary64 value.  `fin m e` is the finite value `m * 2^e`, kept in the
format's own normal form: `|m| < 2^53`, `-1074 ≤ e ≤ 971`, and `2^52 ≤ |m|` unless
`e = -1074` (subnormals and zero).  The sign of zero is not tracked: none of the
operations the service applies (product, sum, square root, conversion to an integer)
can observe it. -/
inductive F64 where
  | fin (m : Int) (e : Int)
  | inf (neg : Bool)
  | nan
  deriving DecidableEq, Repr

namespace F64

/-- Floor of the base-2 logarithm of the rational `a / b` (`0 < a`, `0 < b`). -/
def binade (a b : Nat) : Int :=
  let e0 : Int := (ilog2 a : Int) - (ilog2 b : Int)
  if a * 2 ^ (-e0).toNat < b * 2 ^ e0.toNat then e0 - 1 else e0

/-- The integer nearest to `num / den` (`0 < den`), ties to even. -/
def nearest (num den : Nat) : Nat :=
  let qt := num / den
  let rm := num % den
  if 2 * rm < den then qt else if den < 2 * rm then qt + 1
  else if qt % 2 = 0 then qt else qt + 1

/-- The binary64 value nearest to the rational `n / d` (`0 < d`), ties to even;
overflow gives an infinity.  The exponent `e` of the last place is 52 below the binade of
`|n / d|`, but not below -1074 (subnormals); the significand is `|n / d| / 2^e` rounded
to an integer, renormalised when it rounds up to `2^53`. -/
def round (n : Int) (d : Nat) : F64 :=
  let g := Nat.gcd n.natAbs d
  let a := n.natAbs / g
  let b := d / g
  if a = 0 then fin 0 (-1074) else
  let e : Int := max (binade a b - 52) (-1074)
  let m := nearest (a * 2 ^ (-e).toNat) (b * 2 ^ e.toNat)
  let m1 := if m = 2 ^ 53 then 2 ^ 52 else m
  let e1 := if m = 2 ^ 53 then e + 1 else e
  if 971 < e1 then inf (decide (n < 0))
  else fin (if n < 0 then -(m1 : Int) else (m1 : Int)) e1

/-- The binary64 value nearest to the dyadic number `m * 2^e`. -/
def roundDyadic (m e : Int) : F64 := round (m * 2 ^ e.toNat) (2 ^ (-e).toNat)

/-- A decimal literal of the source, `n / d` with `d` a power of ten (`1e7`, `1.94384`). -/
def lit (n : Int) (d : Nat) : F64 := round n d

/-- Conversion of an integer operand to double (usual arithmetic conversions). -/
def ofInt (n : Int) : F64 := round n 1

/-- Product `x * y`. -/
def mul : F64 → F64 → F64
  | fin m1 e1, fin m2 e2 => roundDyadic (m1 * m2) (e1 + e2)
  | fin m _, inf s => if m = 0 then nan else inf (decide (m < 0) != s)
  | inf s, fin m _ => if m = 0 then nan else inf (s != decide (m < 0))
  | inf s, inf t => inf (s != t)
  | _, _ => nan

/-- Sum `x + y`. -/
def add : F64 → F64 → F64
  | fin m1 e1, fin m2 e2 =>
      roundDyadic (m1 * 2 ^ (e1 - min e1 e2).toNat + m2 * 2 ^ (e2 - min e1 e2).toNat)
        (min e1 e2)
  | fin _ _, inf s => inf s
  | inf s, fin _ _ => inf s
  | inf s, inf t => if s = t then inf s else nan
  | _, _ => nan

/-- The call `sqrt(x)`, correctly rounded as IEEE-754 requires of the operation.  The argument is
scaled by `4^s` to an integer `N ≥ 2^108`; `isqrt N` then has at least 55 bits and one
sticky bit below it decides the rounding. -/
def sqrt : F64 → F64
  | fin m e =>
      if m < 0 then nan else
      let s : Int := max 0 ((109 - e) / 2)
      let N : Nat := m.natAbs * 2 ^ (e + 2 * s).toNat
      let r := isqrt N
      let sticky : Nat := if r * r = N then 0 else 1
      round ((2 * r + sticky : Nat) : Int) (2 ^ (s.toNat + 1))
  | inf false => inf false
  | _ => nan

/-- Truncation toward zero of a finite value; `none` for NaN and the infinities. -/
def trunc : F64 → Option Int
  | fin m e => some (if 0 ≤ e then m * 2 ^ e.toNat else Int.tdiv m (2 ^ (-e).toNat))
  | _ => none

end F64

/-- Result of the implicit conversion of a double to an integer type. -/
inductive CInt where
  | val (v : Int)
  | undef
  deriving DecidableEq, Repr

/-- An integer type of the wire schema, given by its range. -/
structure IntType where
  min : Int
  max : Int
  deriving DecidableEq, Repr

/-- 32-bit signed. -/
def int32 : IntType := { min := -(2 ^ 31), max := 2 ^ 31 - 1 }

/-- 32-bit unsigned. -/
def uint32 : IntType := { min := 0, max := 2 ^ 32 - 1 }

/-- 64-bit unsigned. -/
def uint64 : IntType := { min := 0, max := 2 ^ 64 - 1 }

/-- Implicit conversion double → integer at a setter call: the fractional part is
discarded; the result is undefined when the truncated value does not fit the type. -/
def conv (t : IntType) (x : F64) : CInt :=
  match x.trunc with
  | some v => if t.min ≤ v ∧ v ≤ t.max then CInt.val v else CInt.undef
  | none => CInt.undef

/-- What line 196 leaves to the C library and the compiler.  `sumOfSquares x y` is the
double a build computes for `pow(x, 2) + pow(y, 2)`: the C library's `pow` need not be
correctly rounded (glibc's is within one unit in the last place), and a compiler may
replace `pow(x, 2)` by `x * x` and contract the sum into a fused multiply-add.  The
source does not fix this value, so it is a parameter of the embedding. -/
structure Build where
  sumOfSquares : F64 → F64 → F64

/-- The build in which `pow(x, 2)` is compiled to `x * x` and nothing is contracted
(gcc -O2 for x86-64 without FMA). -/
def plainBuild : Build :=
  { sumOfSquares := fun x y => F64.add (F64.mul x x) (F64.mul y y) }

/-! ## libgps data (gps.h) -/

/-- The C `struct timespec` holding the fix time. -/
structure timespec where
  tv_sec : Int
  tv_nsec : Int
  deriving DecidableEq, Repr

/-- Fields of `struct gps_fix_t` the service reads. -/
structure gps_fix_t where
  time : timespec
  mode : Int
  latitude : F64
  longitude : F64
  altitude : F64
  speed : F64
  track : F64
  epx : F64
  epy : F64
  deriving DecidableEq, Repr

/-- Fields of `struct gps_data_t` the service reads; `set` is the validity mask. -/
structure gps_data_t where
  set : Nat
  status : Int
  fix : gps_fix_t
  deriving DecidableEq, Repr

/-- Constants of gps.h used by the service.  The header belongs to libgps, so the
values are a parameter of the embedding. -/
structure GpsApi where
  STATUS_NO_FIX : Int
  MODE_2D : Int
  MODE_3D : Int
  TIME_SET : Nat
  LATLON_SET : Nat
  ALTITUDE_SET : Nat
  SPEED_SET : Nat
  TRACK_SET : Nat
  deriving DecidableEq, Repr

/-- The values gps.h gives these constants (gpsd 3.20). -/
def libgps : GpsApi :=
  { STATUS_NO_FIX := 0, MODE_2D := 2, MODE_3D := 3,
    TIME_SET := 4, LATLON_SET := 16, ALTITUDE_SET := 32, SPEED_SET := 64, TRACK_SET := 128 }

/-! ## Wire messages (aasdk_proto) -/

/-- Values of `aasdk::proto::enums::Status`; only `OK` is named by the service. -/
inductive Status where
  | OK
  | other (code : Int)
  deriving DecidableEq, Repr

/-- Values of `aasdk::proto::enums::SensorType`; the service names three of them, every
other value of the field (recognised by the schema or not) is `other`. -/
inductive SensorType where
  | DRIVING_STATUS
  | LOCATION
  | NIGHT_DATA
  | other (code : Int)
  deriving DecidableEq, Repr

/-- Values of `aasdk::proto::enums::DrivingStatus`. -/
inductive DrivingStatusEnum where
  | UNRESTRICTED
  | other (code : Int)
  deriving DecidableEq, Repr

/-- Message `DrivingStatus`. -/
structure DrivingStatus where
  status : DrivingStatusEnum
  deriving DecidableEq, Repr

/-- Message `NightMode`. -/
structure NightMode where
  is_night : Bool
  deriving DecidableEq, Repr

/-- Message `GPSLocation`; `none` is a field that was never set. -/
structure GPSLocation where
  timestamp : Option CInt := none
  latitude : Option CInt := none
  longitude : Option CInt := none
  accuracy : Option CInt := none
  altitude : Option CInt := none
  speed : Option CInt := none
  bearing : Option CInt := none
  deriving DecidableEq, Repr

/-- Integer types of the `GPSLocation` fields.  The schema belongs to aasdk, so the
types are a parameter of the embedding. -/
structure GPSLocationSchema where
  timestamp : IntType
  latitude : IntType
  longitude : IntType
  accuracy : IntType
  altitude : IntType
  speed : IntType
  bearing : IntType
  deriving DecidableEq, Repr

/-- The field types of aasdk's GPSLocationData.proto. -/
def aasdkSchema : GPSLocationSchema :=
  { timestamp := uint64, latitude := int32, longitude := int32, accuracy := uint32,
    altitude := int32, speed := int32, bearing := int32 }

/-- Message `SensorEventIndication` (the repeated fields the service fills). -/
structure SensorEventIndication where
  gps_location : List GPSLocation := []
  night_mode : List NightMode := []
  driving_status : List DrivingStatus := []
  deriving DecidableEq, Repr

/-- Message `ChannelOpenResponse`. -/
structure ChannelOpenResponse where
  status : Status
  deriving DecidableEq, Repr

/-- Message `ChannelOpenRequest`. -/
structure ChannelOpenRequest where
  priority : Int
  deriving DecidableEq, Repr

/-- Message `SensorStartResponseMessage`. -/
structure SensorStartResponseMessage where
  status : Status
  deriving DecidableEq, Repr

/-- Message `SensorStartRequestMessage`. -/
structure SensorStartRequestMessage where
  sensor_type : SensorType
  deriving DecidableEq, Repr

/-- Message `Sensor` of a sensor channel descriptor. -/
structure Sensor where
  type : SensorType
  deriving DecidableEq, Repr

/-- Message `SensorChannel`. -/
structure SensorChannel where
  sensors : List Sensor := []
  deriving DecidableEq, Repr

/-- Message `ChannelDescriptor`: the id and the sensor sub-message (other channel kinds
are never touched by this service). -/
structure ChannelDescriptor where
  channel_id : Option Nat := none
  sensor_channel : Option SensorChannel := none
  deriving DecidableEq, Repr

/-- Message `ServiceDiscoveryResponse`. -/
structure ServiceDiscoveryResponse where
  channels : List ChannelDescriptor
  deriving DecidableEq, Repr

/-! ## Calls on the collaborators -/

/-- Success continuation bound to a send promise with `promise->then`.  The failure
continuation is `onChannelError` in every call. -/
inductive Then where
  | nothing
  | sendDrivingStatusUnrestricted
  | sendNightData
  deriving DecidableEq, Repr

/-- A call for effect that the service makes on libgps, the channel or the timer.
Calls made for their result (`gps_open`, `gps_waiting`, `gps_read`, `is_file_exist`) get
it from `Env`. -/
inductive Effect where
  | gps_stream_enable
  | gps_stream_disable
  | gps_close
  | sendChannelOpenResponse (response : ChannelOpenResponse) (promise : Then)
  | sendSensorStartResponse (response : SensorStartResponseMessage) (promise : Then)
  | sendSensorEventIndication (indication : SensorEventIndication) (promise : Then)
  | receive
  | timer_expires_from_now (ms : Nat)
  | timer_async_wait
  deriving DecidableEq, Repr

/-- What the environment returns to the calls made during one handler. -/
structure Env where
  gps_open : Int
  is_file_exist : Bool
  gps_waiting : Bool
  gps_read : Int × gps_data_t

/-! ## The service -/

end SensorService

/-- Member variables of the class `SensorService`. -/
structure SensorService where
  channelId : Nat
  gpsEnabled_ : Bool
  gpsData_ : SensorService.gps_data_t
  isNight : Bool
  previous : Bool
  firstRun : Bool
  stopPolling : Bool
  deriving DecidableEq, Repr

namespace SensorService

/-- Body of `sendDrivingStatusUnrestricted`. -/
def sendDrivingStatusUnrestricted (s : SensorService) : SensorService × List Effect :=
  let indication : SensorEventIndication := {}
  let indication :=
    { indication with
      driving_status := indication.driving_status ++ [{ status := DrivingStatusEnum.UNRESTRICTED }] }
  (s, [Effect.sendSensorEventIndication indication Then.nothing])

/-- Body of `sendNightData`. -/
def sendNightData (s : SensorService) : SensorService × List Effect :=
  let indication : SensorEventIndication := {}
  let indication :=
    if s.isNight then
      { indication with night_mode := indication.night_mode ++ [{ is_night := true }] }
    else
      { indication with night_mode := indication.night_mode ++ [{ is_night := false }] }
  let out := [Effect.sendSensorEventIndication indication Then.nothing]
  if s.firstRun then ({ s with firstRun := false, previous := s.isNight }, out) else (s, out)

/-- Body of `sendGPSLocationData`. -/
def sendGPSLocationData (B : Build) (K : GpsApi) (W : GPSLocationSchema) (s : SensorService) :
    SensorService × List Effect :=
  let indication : SensorEventIndication := {}
  let locInd : GPSLocation := {}
  let locInd := { locInd with
    timestamp := some (conv W.timestamp
      (F64.mul (F64.ofInt s.gpsData_.fix.time.tv_sec) (F64.lit 1000 1))) }
  let locInd := { locInd with
    latitude := some (conv W.latitude (F64.mul s.gpsData_.fix.latitude (F64.lit 10000000 1))) }
  let locInd := { locInd with
    longitude := some (conv W.longitude (F64.mul s.gpsData_.fix.longitude (F64.lit 10000000 1))) }
  let accuracy := F64.sqrt (B.sumOfSquares s.gpsData_.fix.epx s.gpsData_.fix.epy)
  let locInd := { locInd with
    accuracy := some (conv W.accuracy (F64.mul accuracy (F64.lit 1000 1))) }
  let locInd :=
    if s.gpsData_.set &&& K.ALTITUDE_SET ≠ 0 then
      { locInd with
        altitude := some (conv W.altitude (F64.mul s.gpsData_.fix.altitude (F64.lit 100 1))) }
    else locInd
  let locInd :=
    if s.gpsData_.set &&& K.SPEED_SET ≠ 0 then
      { locInd with
        speed := some (conv W.speed
          (F64.mul (F64.mul s.gpsData_.fix.speed (F64.lit 194384 100000)) (F64.lit 1000 1))) }
    else locInd
  let locInd :=
    if s.gpsData_.set &&& K.TRACK_SET ≠ 0 then
      { locInd with
        bearing := some (conv W.bearing (F64.mul s.gpsData_.fix.track (F64.lit 1000000 1))) }
    else locInd
  let indication := { indication with gps_location := indication.gps_location ++ [locInd] }
  (s, [Effect.sendSensorEventIndication indication Then.nothing])

/-- Body of `sensorPolling`.  The conjunction guarding the location event is evaluated
left to right with short circuit: `gps_read` runs, and overwrites `gpsData_`, only when
the adapter is connected and `gps_waiting` reported data; the status, mode and mask
tested after it are those it has just stored. -/
def sensorPolling (B : Build) (K : GpsApi) (W : GPSLocationSchema) (env : Env) (s : SensorService) :
    SensorService × List Effect :=
  if !s.stopPolling then
    let s1 := { s with isNight := env.is_file_exist }
    let r1 :=
      if s1.previous != s1.isNight && !s1.firstRun then
        sendNightData { s1 with previous := s1.isNight }
      else (s1, [])
    let s2 := r1.1
    let r2 :=
      if s2.gpsEnabled_ && env.gps_waiting then
        let s3 := { s2 with gpsData_ := env.gps_read.2 }
        if decide (env.gps_read.1 > 0) &&
            (s3.gpsData_.status != K.STATUS_NO_FIX) &&
            (s3.gpsData_.fix.mode == K.MODE_2D || s3.gpsData_.fix.mode == K.MODE_3D) &&
            (s3.gpsData_.set &&& K.TIME_SET != 0) &&
            (s3.gpsData_.set &&& K.LATLON_SET != 0) then
          sendGPSLocationData B K W s3
        else (s3, [])
      else (s2, [])
    (r2.1, r1.2 ++ r2.2 ++ [Effect.timer_expires_from_now 250, Effect.timer_async_wait])
  else (s, [])

/-- Body of `start` (the handler dispatched on the strand). -/
def start (B : Build) (K : GpsApi) (W : GPSLocationSchema) (env : Env) (s : SensorService) :
    SensorService × List Effect :=
  let r0 : SensorService × List Effect :=
    if env.gps_open ≠ 0 then (s, [])
    else ({ s with gpsEnabled_ := true }, [Effect.gps_stream_enable])
  let s1 := if env.is_file_exist then { r0.1 with isNight := true } else r0.1
  let r1 := sensorPolling B K W env s1
  (r1.1, r0.2 ++ r1.2 ++ [Effect.receive])

/-- First statement of `stop`: the flag write, made on the caller's thread. -/
def stopFlag (s : SensorService) : SensorService := { s with stopPolling := true }

/-- Handler `stop` dispatches on the strand. -/
def stopHandler (s : SensorService) : SensorService × List Effect :=
  if s.gpsEnabled_ then
    ({ s with gpsEnabled_ := false }, [Effect.gps_stream_disable, Effect.gps_close])
  else (s, [])

/-- Body of `stop`: the flag write followed by the dispatched handler. -/
def stop (s : SensorService) : SensorService × List Effect := stopHandler (stopFlag s)

/-- Body of `pause` (logs only). -/
def pause (s : SensorService) : SensorService × List Effect := (s, [])

/-- Body of `resume` (logs only). -/
def resume (s : SensorService) : SensorService × List Effect := (s, [])

/-- Body of `fillFeatures`; the service is returned next to the response so that its
frame can be stated. -/
def fillFeatures (s : SensorService) (response : ServiceDiscoveryResponse) :
    SensorService × ServiceDiscoveryResponse :=
  let channelDescriptor : ChannelDescriptor := {}
  let channelDescriptor := { channelDescriptor with channel_id := some (s.channelId % 2 ^ 32) }
  let sensorChannel : SensorChannel := channelDescriptor.sensor_channel.getD {}
  let sensorChannel :=
    { sensorChannel with
      sensors := sensorChannel.sensors ++ [({ type := SensorType.DRIVING_STATUS } : Sensor)] }
  let sensorChannel :=
    { sensorChannel with
      sensors := sensorChannel.sensors ++ [({ type := SensorType.LOCATION } : Sensor)] }
  let sensorChannel :=
    { sensorChannel with
      sensors := sensorChannel.sensors ++ [({ type := SensorType.NIGHT_DATA } : Sensor)] }
  let channelDescriptor := { channelDescriptor with sensor_channel := some sensorChannel }
  (s, { response with channels := response.channels ++ [channelDescriptor] })

/-- Body of `onChannelOpenRequest`. -/
def onChannelOpenRequest (_request : ChannelOpenRequest) (s : SensorService) :
    SensorService × List Effect :=
  let response : ChannelOpenResponse := { status := Status.OK }
  (s, [Effect.sendChannelOpenResponse response Then.nothing, Effect.receive])

/-- Body of `onSensorStartRequest`. -/
def onSensorStartRequest (request : SensorStartRequestMessage) (s : SensorService) :
    SensorService × List Effect :=
  let response : SensorStartResponseMessage := { status := Status.OK }
  let promise :=
    if request.sensor_type = SensorType.DRIVING_STATUS then Then.sendDrivingStatusUnrestricted
    else if request.sensor_type = SensorType.NIGHT_DATA then Then.sendNightData
    else Then.nothing
  (s, [Effect.sendSensorStartResponse response promise, Effect.receive])

/-- Body of `onChannelError` (logs only). -/
def onChannelError (s : SensorService) : SensorService × List Effect := (s, [])

/-- A send promise is resolved: its success continuation runs on the strand. -/
def resolve (promise : Then) (s : SensorService) : SensorService × List Effect :=
  match promise with
  | Then.nothing => (s, [])
  | Then.sendDrivingStatusUnrestricted => sendDrivingStatusUnrestricted s
  | Then.sendNightData => sendNightData s

/-- A send promise is rejected: `onChannelError` runs on the strand. -/
def reject (_promise : Then) (s : SensorService) : SensorService × List Effect :=
  onChannelError s

/-! ## Runs of the service -/

/-- One step of a run: a handler executed on the strand, or the flag write of `stop`,
which its caller makes before the handler is dispatched.  `timer` is the completion of a
wait armed by `timer_async_wait`; it calls `sensorPolling`. -/
inductive Op where
  | start (env : Env)
  | stopFlag
  | stopHandler
  | pause
  | resume
  | onChannelOpenRequest (request : ChannelOpenRequest)
  | onSensorStartRequest (request : SensorStartRequestMessage)
  | resolve (promise : Then)
  | reject (promise : Then)
  | timer (env : Env)

/-- The code an `Op` stands for. -/
def step (B : Build) (K : GpsApi) (W : GPSLocationSchema) (op : Op) (s : SensorService) :
    SensorService × List Effect :=
  match op with
  | Op.start env => start B K W env s
  | Op.stopFlag => (stopFlag s, [])
  | Op.stopHandler => stopHandler s
  | Op.pause => pause s
  | Op.resume => resume s
  | Op.onChannelOpenRequest request => onChannelOpenRequest request s
  | Op.onSensorStartRequest request => onSensorStartRequest request s
  | Op.resolve promise => resolve promise s
  | Op.reject promise => reject promise s
  | Op.timer env => sensorPolling B K W env s

/-- Steps run one after another; the calls they make are collected in order. -/
def run (B : Build) (K : GpsApi) (W : GPSLocationSchema) : List Op → SensorService →
    SensorService × List Effect
  | [], s => (s, [])
  | op :: ops, s =>
      ((run B K W ops (step B K W op s).1).1, (step B K W op s).2 ++ (run B K W ops (step B K W op s).1).2)

/-- Consecutive poll ticks, one per environment reading. -/
def ticks (B : Build) (K : GpsApi) (W : GPSLocationSchema) (envs : List Env) (s : SensorService) :
    SensorService × List Effect :=
  run B K W (envs.map Op.timer) s

/-! ## Observations on a list of calls -/

/-- The `is_night` values carried by one call. -/
def Effect.night : Effect → List Bool
  | Effect.sendSensorEventIndication i _ => i.night_mode.map NightMode.is_night
  | _ => []

/-- The location payloads carried by one call. -/
def Effect.location : Effect → List GPSLocation
  | Effect.sendSensorEventIndication i _ => i.gps_location
  | _ => []

/-- The delay set by one call, if it is `expires_from_now`. -/
def Effect.expiry : Effect → List Nat
  | Effect.timer_expires_from_now ms => [ms]
  | _ => []

/-- Is the call `async_wait`? -/
def Effect.wait : Effect → Nat
  | Effect.timer_async_wait => 1
  | _ => 0

/-- The `is_night` values of the night-mode events sent, in order. -/
def nightEvents : List Effect → List Bool
  | [] => []
  | e :: out => e.night ++ nightEvents out

/-- The location payloads of the events sent, in order. -/
def locationEvents : List Effect → List GPSLocation
  | [] => []
  | e :: out => e.location ++ locationEvents out

/-- The delays given to `expires_from_now`, in order. -/
def expiries : List Effect → List Nat
  | [] => []
  | e :: out => e.expiry ++ expiries out

/-- Number of waits armed with `async_wait`. -/
def waits : List Effect → Nat
  | [] => 0
  | e :: out => e.wait + waits out

/-- Number of completed waits (invocations of `sensorPolling` by the timer) in a run. -/
def timerRuns : List Op → Nat
  | [] => 0
  | Op.timer _ :: ops => timerRuns ops + 1
  | _ :: ops => timerRuns ops

/-- Timer discipline: a wait completes only if one is pending.  With `p` waits pending
before the run, every `timer` step consumes one and every step adds the waits it arms. -/
def feasible (B : Build) (K : GpsApi) (W : GPSLocationSchema) : Nat → List Op → SensorService → Bool
  | _, [], _ => true
  | p, Op.timer env :: ops, s =>
      decide (0 < p) &&
        feasible B K W (p - 1 + waits (sensorPolling B K W env s).2) ops (sensorPolling B K W env s).1
  | p, op :: ops, s => feasible B K W (p + waits (step B K W op s).2) ops (step B K W op s).1

/-- Spec side of the night-mode rule (spec 4.2 step 2, 8): given the last emitted value
`prev`, a read is emitted exactly when it differs from it, and then becomes the last
emitted value. -/
def specNightEvents (prev : Bool) : List Bool → List Bool
  | [] => []
  | b :: bs => if b ≠ prev then b :: specNightEvents b bs else specNightEvents prev bs

/-! ## Spec side of the location fields

The values the specification names, stated over the rationals: the exact value of a
double, what it is for a double to be a nearest one to a real number, and truncation
toward zero. -/

/-- State in which `start` calls `sensorPolling`. -/
def startPre (env : Env) (s : SensorService) : SensorService :=
  { s with
    gpsEnabled_ := if env.gps_open ≠ 0 then s.gpsEnabled_ else true,
    isNight := if env.is_file_exist then true else s.isNight }

/-- Invariant of a run that began with `firstRun` set and nothing sent: `firstRun` is
still set exactly when no night-mode event has been sent, and while the poll loop is
live with `firstRun` cleared, `previous` and `isNight` both equal the value of the last
night-mode event sent. -/
def Inv (s : SensorService) (out : List Effect) : Prop :=
  (s.firstRun = true → nightEvents out = []) ∧
  (s.firstRun = false → nightEvents out ≠ []) ∧
  (s.firstRun = false → s.stopPolling = false →
    s.isNight = s.previous ∧ (nightEvents out).getLast? = some s.previous)

/-- A 3-D fix at 37.422000 N, 122.084000 W with horizontal errors 3.0 m and 4.0 m, taken
1.5 s after the epoch; only the time and the position are marked valid. -/
def fixSample : gps_data_t :=
  { set := 20, status := 1,
    fix := { time := { tv_sec := 1, tv_nsec := 500000000 }, mode := 3,
             latitude := F64.lit 37422 1000, longitude := F64.lit (-122084) 1000,
             altitude := F64.nan, speed := F64.nan, track := F64.nan,
             epx := F64.lit 30 10, epy := F64.lit 40 10 } }

/-- A service on which `start` has not run: not connected to gpsd, stop flag clear,
`firstRun` set. -/
def idle : SensorService :=
  { channelId := 2, gpsEnabled_ := false, gpsData_ := fixSample, isNight := false,
    previous := false, firstRun := true, stopPolling := false }

/-- A service that is polling, connected to gpsd, with `firstRun` still set. -/
def polling : SensorService :=
  { channelId := 2, gpsEnabled_ := true, gpsData_ := fixSample, isNight := false,
    previous := false, firstRun := true, stopPolling := false }

/-- The polling service after its `firstRun` has been cleared. -/
def pollingLater : SensorService := { polling with firstRun := false }

/-- An environment in which gpsd is reachable and delivers `fixSample`, and the
night-mode marker is absent. -/
def envDay : Env :=
  { gps_open := 0, is_file_exist := false, gps_waiting := true, gps_read := (1, fixSample) }

/-- The same environment with the night-mode marker present. -/
def envNight : Env := { envDay with is_file_exist := true }

@[simp]
theorem nightEvents_append (a b : List Effect) :
    nightEvents (a ++ b) = nightEvents a ++ nightEvents b := by
  induction a with
  | nil => rfl
  | cons e a ih => simp [nightEvents, ih]

@[simp]
theorem locationEvents_append (a b : List Effect) :
    locationEvents (a ++ b) = locationEvents a ++ locationEvents b := by
  induction a with
  | nil => rfl
  | cons e a ih => simp [locationEvents, ih]

@[simp]
theorem expiries_append (a b : List Effect) :
    expiries (a ++ b) = expiries a ++ expiries b := by
  induction a with
  | nil => rfl
  | cons e a ih => simp [expiries, ih]

@[simp]
theorem waits_append (a b : List Effect) : waits (a ++ b) = waits a + waits b := by
  induction a with
  | nil => simp [waits]
  | cons e a ih => simp [waits, ih, Nat.add_assoc]

/-! ## Lemmas on the handlers -/

theorem sendNightData_out (t : SensorService) :
    (sendNightData t).2 =
      [Effect.sendSensorEventIndication { night_mode := [{ is_night := t.isNight }] }
        Then.nothing] := by
  cases h1 : t.isNight <;> cases h2 : t.firstRun <;> simp [sendNightData, h1, h2]

theorem sendNightData_state (t : SensorService) :
    (sendNightData t).1 =
      if t.firstRun then { t with firstRun := false, previous := t.isNight } else t := by
  cases h2 : t.firstRun <;> simp [sendNightData, h2]

theorem sendGPSLocationData_state (B : Build) (K : GpsApi) (W : GPSLocationSchema) (t : SensorService) :
    (sendGPSLocationData B K W t).1 = t := rfl

theorem sendGPSLocationData_night (B : Build) (K : GpsApi) (W : GPSLocationSchema) (t : SensorService) :
    nightEvents (sendGPSLocationData B K W t).2 = [] := by
  simp [sendGPSLocationData, nightEvents, Effect.night]

theorem sendGPSLocationData_one (B : Build) (K : GpsApi) (W : GPSLocationSchema) (t : SensorService) :
    (locationEvents (sendGPSLocationData B K W t).2).length = 1 := by
  simp [sendGPSLocationData, locationEvents, Effect.location]

theorem sensorPolling_stopped (B : Build) (K : GpsApi) (W : GPSLocationSchema) (env : Env)
    (s : SensorService) (h : s.stopPolling = true) : sensorPolling B K W env s = (s, []) := by
  simp [sensorPolling, h]

theorem sensorPolling_stopPolling (B : Build) (K : GpsApi) (W : GPSLocationSchema) (env : Env)
    (s : SensorService) : (sensorPolling B K W env s).1.stopPolling = s.stopPolling := by
  cases hs : s.stopPolling
  · simp only [sensorPolling, hs]
    simp only [Bool.not_false, if_true]
    split_ifs <;> simp_all [sendNightData_state, sendGPSLocationData_state]
  · simp [sensorPolling, hs]

theorem sensorPolling_firstRun (B : Build) (K : GpsApi) (W : GPSLocationSchema) (env : Env)
    (s : SensorService) : (sensorPolling B K W env s).1.firstRun = s.firstRun := by
  cases hs : s.stopPolling
  · simp only [sensorPolling, hs]
    simp only [Bool.not_false, if_true]
    split_ifs <;> simp_all [sendNightData_state, sendGPSLocationData_state]
  · simp [sensorPolling, hs]

theorem sensorPolling_nightEvents (B : Build) (K : GpsApi) (W : GPSLocationSchema) (env : Env)
    (s : SensorService) (hrun : s.stopPolling = false) :
    nightEvents (sensorPolling B K W env s).2 =
      if env.is_file_exist ≠ s.previous ∧ s.firstRun = false then [env.is_file_exist] else [] := by
  simp only [sensorPolling, hrun]
  simp only [Bool.not_false, if_true]
  split_ifs <;>
    simp_all [sendNightData_out, sendNightData_state, sendGPSLocationData_night, nightEvents,
      Effect.night]

theorem sensorPolling_previous (B : Build) (K : GpsApi) (W : GPSLocationSchema) (env : Env)
    (s : SensorService) (hrun : s.stopPolling = false) :
    (sensorPolling B K W env s).1.previous =
      if env.is_file_exist ≠ s.previous ∧ s.firstRun = false then env.is_file_exist
      else s.previous := by
  simp only [sensorPolling, hrun]
  simp only [Bool.not_false, if_true]
  split_ifs <;>
    simp_all [sendNightData_out, sendNightData_state, sendGPSLocationData_state]

theorem sensorPolling_isNight (B : Build) (K : GpsApi) (W : GPSLocationSchema) (env : Env)
    (s : SensorService) (hrun : s.stopPolling = false) :
    (sensorPolling B K W env s).1.isNight = env.is_file_exist := by
  simp only [sensorPolling, hrun]
  simp only [Bool.not_false, if_true]
  split_ifs <;> simp_all [sendNightData_state, sendGPSLocationData_state]

theorem sensorPolling_timer (B : Build) (K : GpsApi) (W : GPSLocationSchema) (env : Env)
    (s : SensorService) (hrun : s.stopPolling = false) :
    expiries (sensorPolling B K W env s).2 = [250] ∧ waits (sensorPolling B K W env s).2 = 1 := by
  have hg : ∀ t : SensorService, expiries (sendGPSLocationData B K W t).2 = [] ∧
      waits (sendGPSLocationData B K W t).2 = 0 := by
    intro t
    simp [sendGPSLocationData, expiries, waits, Effect.expiry, Effect.wait]
  simp only [sensorPolling, hrun]
  simp only [Bool.not_false, if_true]
  split_ifs <;>
    simp_all [sendNightData_out, sendNightData_state, expiries, waits, Effect.expiry,
      Effect.wait]

theorem start_eq (B : Build) (K : GpsApi) (W : GPSLocationSchema) (env : Env) (s : SensorService) :
    start B K W env s =
      ((sensorPolling B K W env (startPre env s)).1,
        (if env.gps_open ≠ 0 then [] else [Effect.gps_stream_enable]) ++
          (sensorPolling B K W env (startPre env s)).2 ++ [Effect.receive]) := by
  unfold start startPre
  by_cases h1 : env.gps_open = 0 <;> cases h2 : env.is_file_exist <;> simp [h1, h2]

theorem start_stopped (B : Build) (K : GpsApi) (W : GPSLocationSchema) (env : Env) (s : SensorService)
    (h : s.stopPolling = true) :
    start B K W env s =
      (startPre env s, (if env.gps_open ≠ 0 then [] else [Effect.gps_stream_enable]) ++
        [Effect.receive]) := by
  have hp : (startPre env s).stopPolling = true := by simp [startPre, h]
  rw [start_eq, sensorPolling_stopped B K W env _ hp]
  simp

theorem stop_stopPolling (s : SensorService) : (stop s).1.stopPolling = true := by
  simp only [stop, stopHandler]
  split_ifs <;> simp [stopFlag]

/-! ## Lemmas on runs -/

theorem ticks_cons (B : Build) (K : GpsApi) (W : GPSLocationSchema) (env : Env) (envs : List Env)
    (s : SensorService) :
    ticks B K W (env :: envs) s =
      ((ticks B K W envs (sensorPolling B K W env s).1).1,
        (sensorPolling B K W env s).2 ++ (ticks B K W envs (sensorPolling B K W env s).1).2) := rfl

theorem ticks_nightEvents (B : Build) (K : GpsApi) (W : GPSLocationSchema) (envs : List Env) :
    ∀ s : SensorService, s.stopPolling = false →
      nightEvents (ticks B K W envs s).2 =
        if s.firstRun then [] else specNightEvents s.previous (envs.map Env.is_file_exist) := by
  induction envs with
  | nil =>
      intro s _
      simp [ticks, run, nightEvents, specNightEvents]
  | cons env envs ih =>
      intro s hrun
      have h1 : (sensorPolling B K W env s).1.stopPolling = false := by
        rw [sensorPolling_stopPolling]; exact hrun
      rw [ticks_cons]
      simp only [nightEvents_append, ih _ h1, sensorPolling_firstRun,
        sensorPolling_nightEvents B K W env s hrun, sensorPolling_previous B K W env s hrun]
      cases hf : s.firstRun <;> cases hp : s.previous <;> cases he : env.is_file_exist <;>
        simp [specNightEvents, he]

theorem step_stopPolling (B : Build) (K : GpsApi) (W : GPSLocationSchema) (op : Op) (s : SensorService)
    (h : s.stopPolling = true) : (step B K W op s).1.stopPolling = true := by
  cases op with
  | start env => simp [step, start_eq, sensorPolling_stopPolling, startPre, h]
  | stopFlag => simp [step, stopFlag]
  | stopHandler => simp only [step, stopHandler]; split_ifs <;> simp [h]
  | pause => simpa [step, pause] using h
  | resume => simpa [step, resume] using h
  | onChannelOpenRequest r => simpa [step, onChannelOpenRequest] using h
  | onSensorStartRequest r => simpa [step, onSensorStartRequest] using h
  | resolve k =>
      cases k <;> simp [step, resolve, sendDrivingStatusUnrestricted, sendNightData_state, h]
      split_ifs <;> simp [h]
  | reject k => simpa [step, reject, onChannelError] using h
  | timer env => simp [step, sensorPolling_stopPolling, h]

theorem step_quiet (B : Build) (K : GpsApi) (W : GPSLocationSchema) (op : Op) (s : SensorService)
    (h : s.stopPolling = true) :
    waits (step B K W op s).2 = 0 ∧ expiries (step B K W op s).2 = [] ∧
      locationEvents (step B K W op s).2 = [] := by
  cases op with
  | start env =>
      have hp : (startPre env s).stopPolling = true := by simp [startPre, h]
      simp only [step, start_eq, sensorPolling_stopped B K W env _ hp]
      split_ifs <;> simp [waits, expiries, locationEvents, Effect.wait, Effect.expiry,
        Effect.location]
  | stopFlag => simp [step, waits, expiries, locationEvents]
  | stopHandler =>
      simp only [step, stopHandler]
      split_ifs <;> simp [waits, expiries, locationEvents, Effect.wait, Effect.expiry,
        Effect.location]
  | pause => simp [step, pause, waits, expiries, locationEvents]
  | resume => simp [step, resume, waits, expiries, locationEvents]
  | onChannelOpenRequest r =>
      simp [step, onChannelOpenRequest, waits, expiries, locationEvents, Effect.wait,
        Effect.expiry, Effect.location]
  | onSensorStartRequest r =>
      simp [step, onSensorStartRequest, waits, expiries, locationEvents, Effect.wait,
        Effect.expiry, Effect.location]
  | resolve k =>
      cases k <;>
        simp [step, resolve, sendDrivingStatusUnrestricted, sendNightData_out, waits, expiries,
          locationEvents, Effect.wait, Effect.expiry, Effect.location]
  | reject k => simp [step, reject, onChannelError, waits, expiries, locationEvents]
  | timer env =>
      simp [step, sensorPolling_stopped B K W env s h, waits, expiries, locationEvents]

theorem run_stopPolling (B : Build) (K : GpsApi) (W : GPSLocationSchema) (ops : List Op) :
    ∀ s : SensorService, s.stopPolling = true → (run B K W ops s).1.stopPolling = true := by
  induction ops with
  | nil => intro s h; simpa [run] using h
  | cons op ops ih => intro s h; exact ih _ (step_stopPolling B K W op s h)

theorem run_quiet (B : Build) (K : GpsApi) (W : GPSLocationSchema) (ops : List Op) :
    ∀ s : SensorService, s.stopPolling = true →
      waits (run B K W ops s).2 = 0 ∧ expiries (run B K W ops s).2 = [] ∧
        locationEvents (run B K W ops s).2 = [] := by
  induction ops with
  | nil => intro s _; simp [run, waits, expiries, locationEvents]
  | cons op ops ih =>
      intro s h
      obtain ⟨a1, a2, a3⟩ := step_quiet B K W op s h
      obtain ⟨b1, b2, b3⟩ := ih _ (step_stopPolling B K W op s h)
      simp [run, a1, a2, a3, b1, b2, b3]

theorem timerRuns_le (B : Build) (K : GpsApi) (W : GPSLocationSchema) (ops : List Op) :
    ∀ (p : Nat) (s : SensorService), s.stopPolling = true → feasible B K W p ops s = true →
      timerRuns ops ≤ p := by
  induction ops with
  | nil => intro p s _ _; simp [timerRuns]
  | cons op ops ih =>
      intro p s h hf
      have hq := (step_quiet B K W op s h).1
      have hs := step_stopPolling B K W op s h
      cases op with
      | timer env =>
          simp only [feasible, Bool.and_eq_true, decide_eq_true_eq] at hf
          simp only [step] at hq hs
          rw [hq] at hf
          have := ih _ _ hs hf.2
          simp only [timerRuns]
          omega
      | _ =>
          simp only [feasible] at hf
          rw [hq] at hf
          simpa [timerRuns] using ih _ _ hs hf

theorem Inv_sensorPolling (B : Build) (K : GpsApi) (W : GPSLocationSchema) (env : Env)
    (s t : SensorService) (pre : List Effect)
    (hf : t.firstRun = s.firstRun) (hp : t.previous = s.previous)
    (hs : t.stopPolling = s.stopPolling) (h : Inv s pre) :
    Inv (sensorPolling B K W env t).1 (pre ++ (sensorPolling B K W env t).2) := by
  obtain ⟨i1, i2, i3⟩ := h
  cases hstop : s.stopPolling
  · have hrun : t.stopPolling = false := by rw [hs, hstop]
    have e1 := sensorPolling_nightEvents B K W env t hrun
    have e2 := sensorPolling_previous B K W env t hrun
    have e3 := sensorPolling_isNight B K W env t hrun
    have e4 := sensorPolling_firstRun B K W env t
    have e5 := sensorPolling_stopPolling B K W env t
    unfold Inv
    rw [nightEvents_append, e1, e2, e3, e4, e5, hf, hp]
    cases hfr : s.firstRun
    · obtain ⟨j1, j2⟩ := i3 hfr hstop
      have j3 := i2 hfr
      by_cases hc : env.is_file_exist = s.previous
      · simp [hc, j2, j3]
      · simp [hc, j3]
    · simp [i1 hfr]
  · have hrun : t.stopPolling = true := by rw [hs, hstop]
    rw [sensorPolling_stopped B K W env t hrun]
    unfold Inv
    simp only [List.append_nil, hf, hrun]
    exact ⟨i1, i2, by simp⟩

theorem Inv_sendNightData (s : SensorService) (pre : List Effect) (h : Inv s pre) :
    Inv (sendNightData s).1 (pre ++ (sendNightData s).2) := by
  obtain ⟨i1, i2, i3⟩ := h
  unfold Inv
  rw [sendNightData_out, sendNightData_state]
  cases hfr : s.firstRun
  · have j3 := i2 hfr
    simp only [nightEvents_append, hfr]
    refine ⟨by simp [hfr], by simp [j3], ?_⟩
    intro _ hstop
    obtain ⟨j1, j2⟩ := i3 hfr hstop
    simp [j1, nightEvents, Effect.night]
  · simp [nightEvents, Effect.night, i1 hfr]

theorem Inv_frame (s t : SensorService) (pre out : List Effect) (h : Inv s pre)
    (hf : t.firstRun = s.firstRun) (hp : t.previous = s.previous)
    (hn : t.isNight = s.isNight)
    (hst : t.stopPolling = false → s.stopPolling = false) (ho : nightEvents out = []) :
    Inv t (pre ++ out) := by
  obtain ⟨i1, i2, i3⟩ := h
  unfold Inv
  rw [nightEvents_append, ho, List.append_nil, hf, hp, hn]
  exact ⟨i1, i2, fun a b => i3 a (hst b)⟩

theorem Inv_step (B : Build) (K : GpsApi) (W : GPSLocationSchema) (op : Op) (s : SensorService)
    (pre : List Effect) (h : Inv s pre) :
    Inv (step B K W op s).1 (pre ++ (step B K W op s).2) := by
  cases op with
  | start env =>
      have hk := Inv_sensorPolling B K W env s (startPre env s) pre rfl rfl rfl h
      simp only [step, start_eq]
      obtain ⟨k1, k2, k3⟩ := hk
      unfold Inv
      rw [nightEvents_append] at k1 k2 k3
      have hz : nightEvents (if env.gps_open ≠ 0 then [] else [Effect.gps_stream_enable]) = [] := by
        split_ifs <;> simp [nightEvents, Effect.night]
      simp only [nightEvents_append, hz, List.nil_append]
      simp only [nightEvents, Effect.night, List.append_nil]
      exact ⟨k1, k2, k3⟩
  | stopFlag =>
      exact Inv_frame s _ pre [] h rfl rfl rfl
        (fun hh => by simp [step, stopFlag] at hh) rfl
  | stopHandler =>
      simp only [step, stopHandler]
      split_ifs
      · exact Inv_frame s _ pre _ h rfl rfl rfl (fun hh => hh)
          (by simp [nightEvents, Effect.night])
      · exact Inv_frame s _ pre _ h rfl rfl rfl (fun hh => hh) rfl
  | pause => exact Inv_frame s _ pre _ h rfl rfl rfl (fun hh => hh) rfl
  | resume => exact Inv_frame s _ pre _ h rfl rfl rfl (fun hh => hh) rfl
  | onChannelOpenRequest r =>
      exact Inv_frame s _ pre _ h rfl rfl rfl (fun hh => hh)
        (by simp [step, onChannelOpenRequest, nightEvents, Effect.night])
  | onSensorStartRequest r =>
      exact Inv_frame s _ pre _ h rfl rfl rfl (fun hh => hh)
        (by simp [step, onSensorStartRequest, nightEvents, Effect.night])
  | resolve k =>
      cases k with
      | nothing => exact Inv_frame s _ pre _ h rfl rfl rfl (fun hh => hh) rfl
      | sendDrivingStatusUnrestricted =>
          exact Inv_frame s _ pre _ h rfl rfl rfl (fun hh => hh)
            (by simp [step, resolve, sendDrivingStatusUnrestricted, nightEvents, Effect.night])
      | sendNightData => exact Inv_sendNightData s pre h
  | reject k => exact Inv_frame s _ pre _ h rfl rfl rfl (fun hh => hh) rfl
  | timer env => exact Inv_sensorPolling B K W env s s pre rfl rfl rfl h

theorem Inv_run (B : Build) (K : GpsApi) (W : GPSLocationSchema) (ops : List Op) :
    ∀ (s : SensorService) (pre : List Effect), Inv s pre →
      Inv (run B K W ops s).1 (pre ++ (run B K W ops s).2) := by
  induction ops with
  | nil => intro s pre h; simpa [run] using h
  | cons op ops ih =>
      intro s pre h
      have := ih _ _ (Inv_step B K W op s pre h)
      simpa [run, List.append_assoc] using this

theorem Inv_init (s : SensorService) (h : s.firstRun = true) : Inv s [] := by
  unfold Inv
  simp [h, nightEvents]

theorem step_firstRun (B : Build) (K : GpsApi) (W : GPSLocationSchema) (op : Op) (s : SensorService) :
    (step B K W op s).1.firstRun = (s.firstRun && (nightEvents (step B K W op s).2).isEmpty) := by
  have hpoll : ∀ (env : Env) (t : SensorService),
      (sensorPolling B K W env t).1.firstRun =
        (t.firstRun && (nightEvents (sensorPolling B K W env t).2).isEmpty) := by
    intro env t
    rw [sensorPolling_firstRun]
    cases hs : t.stopPolling
    · rw [sensorPolling_nightEvents B K W env t hs]
      cases hf : t.firstRun <;> simp
    · rw [sensorPolling_stopped B K W env t hs]
      simp [nightEvents]
  cases op with
  | start env =>
      have hz : nightEvents (if env.gps_open ≠ 0 then [] else [Effect.gps_stream_enable]) = [] := by
        split_ifs <;> simp [nightEvents, Effect.night]
      simp only [step, start_eq, nightEvents_append, hz, List.nil_append]
      simp only [nightEvents, Effect.night, List.append_nil]
      exact hpoll env (startPre env s)
  | stopFlag => simp [step, stopFlag, nightEvents]
  | stopHandler =>
      simp only [step, stopHandler]
      split_ifs <;> simp [nightEvents, Effect.night]
  | pause => simp [step, pause, nightEvents]
  | resume => simp [step, resume, nightEvents]
  | onChannelOpenRequest r => simp [step, onChannelOpenRequest, nightEvents, Effect.night]
  | onSensorStartRequest r => simp [step, onSensorStartRequest, nightEvents, Effect.night]
  | resolve k =>
      cases k with
      | nothing => simp [step, resolve, nightEvents]
      | sendDrivingStatusUnrestricted =>
          simp [step, resolve, sendDrivingStatusUnrestricted, nightEvents, Effect.night]
      | sendNightData =>
          simp only [step, resolve, sendNightData_out, sendNightData_state]
          cases hf : s.firstRun <;> simp [nightEvents, Effect.night, hf]
  | reject k => simp [step, reject, onChannelError, nightEvents]
  | timer env => exact hpoll env s

theorem run_firstRun (B : Build) (K : GpsApi) (W : GPSLocationSchema) (ops : List Op) :
    ∀ s : SensorService,
      (run B K W ops s).1.firstRun = (s.firstRun && (nightEvents (run B K W ops s).2).isEmpty) := by
  induction ops with
  | nil => intro s; simp [run, nightEvents]
  | cons op ops ih =>
      intro s
      simp only [run, nightEvents_append]
      rw [ih, step_firstRun]
      cases s.firstRun <;> cases h1 : nightEvents (step B K W op s).2 <;> simp

/-! ## Correctness of the integer helpers and exactness on small integers -/

theorem log2Loop_spec : ∀ (fuel n : Nat), n ≤ fuel → n ≠ 0 →
    2 ^ log2Loop fuel n ≤ n ∧ n < 2 ^ (log2Loop fuel n + 1) := by
  intro fuel
  induction fuel with
  | zero => intro n h0 h1; omega
  | succ fuel ih =>
      intro n hle hne
      unfold log2Loop
      by_cases h2 : n < 2
      · simp only [h2, if_true]
        have : n = 1 := by omega
        subst this
        simp
      · simp only [h2, if_false]
        have hdiv : n / 2 ≤ fuel := by omega
        have hne2 : n / 2 ≠ 0 := by omega
        obtain ⟨a, b⟩ := ih (n / 2) hdiv hne2
        rw [Nat.pow_succ] at b ⊢
        rw [Nat.pow_succ]
        constructor <;> omega

theorem ilog2_spec (n : Nat) (h : n ≠ 0) : 2 ^ ilog2 n ≤ n ∧ n < 2 ^ (ilog2 n + 1) :=
  log2Loop_spec n n (Nat.le_refl n) h

theorem ilog2_one : ilog2 1 = 0 := by decide

theorem ilog2_le_of_lt (n k : Nat) (h : n ≠ 0) (hlt : n < 2 ^ (k + 1)) : ilog2 n ≤ k := by
  have h1 := (ilog2_spec n h).1
  have h2 : 2 ^ ilog2 n < 2 ^ (k + 1) := Nat.lt_of_le_of_lt h1 hlt
  have := (Nat.pow_lt_pow_iff_right (by norm_num : 1 < 2)).1 h2
  omega

theorem round_mul_exact (x d : Nat) (hx : 0 < x) (hx53 : x < 2 ^ 53) (hd : 0 < d) :
    F64.round ((x * d : Nat) : Int) d =
      F64.fin ((x * 2 ^ (52 - ilog2 x) : Nat) : Int) ((ilog2 x : Int) - 52) := by
  have hne : x ≠ 0 := by omega
  obtain ⟨hlo, hhi⟩ := ilog2_spec x hne
  have hL : ilog2 x ≤ 52 := ilog2_le_of_lt x 52 hne hx53
  have hg : Nat.gcd (x * d) d = d := Nat.gcd_mul_left_left x d
  have ha : x * d / d = x := Nat.mul_div_cancel x hd
  have hb : d / d = 1 := Nat.div_self hd
  unfold F64.round F64.nearest F64.binade
  simp only [Int.natAbs_ofNat, hg, ha, hb, ilog2_one]
  generalize hLdef : ilog2 x = L at *
  have e1 : ((L : Int) - ((0 : Nat) : Int)) = (L : Int) := by simp
  have t1 : (-(L : Int)).toNat = 0 := by omega
  have t2 : ((L : Int)).toNat = L := by omega
  have hk : ¬ (x * 2 ^ 0 < 1 * 2 ^ L) := by simp; omega
  have e2 : max ((L : Int) - 52) (-1074) = (L : Int) - 52 := by omega
  have t3 : (-((L : Int) - 52)).toNat = 52 - L := by omega
  have t4 : ((L : Int) - 52).toNat = 0 := by omega
  simp only [e1, t1, t2, hk, if_false, e2, t3, t4, hne]
  have hm : x * 2 ^ (52 - L) < 2 ^ 53 := by
    have h1 : x * 2 ^ (52 - L) < 2 ^ (L + 1) * 2 ^ (52 - L) :=
      Nat.mul_lt_mul_of_pos_right hhi (Nat.pow_pos (by norm_num))
    have h2 : 2 ^ (L + 1) * 2 ^ (52 - L) = 2 ^ 53 := by
      rw [← Nat.pow_add]; congr 1; omega
    rw [h2] at h1; exact h1
  have hm2 : x * 2 ^ (52 - L) ≠ 2 ^ 53 := Nat.ne_of_lt hm
  have hneg : ¬ (((x * d : Nat) : Int) < 0) := by omega
  have h971 : ¬ ((971 : Int) < (L : Int) - 52) := by omega
  simp only [Nat.pow_zero, Nat.mul_one, Nat.mod_one, Nat.div_one, Nat.mul_zero,
    Nat.zero_lt_one, if_true, hm2, if_false, hneg, h971]

theorem trunc_scaled (x j : Nat) :
    F64.trunc (F64.fin ((x * 2 ^ j : Nat) : Int) (-(j : Int))) = some (x : Int) := by
  unfold F64.trunc
  by_cases hj : j = 0
  · subst hj
    simp
  · have h1 : ¬ ((0 : Int) ≤ -(j : Int)) := by omega
    have h2 : (-(-(j : Int))).toNat = j := by omega
    simp only [h1, if_false, h2]
    have h3 : ((2 : Int) ^ j) ≠ 0 := by positivity
    have h4 : (((x * 2 ^ j : Nat) : Int)) = (x : Int) * (2 : Int) ^ j := by push_cast; rfl
    rw [h4, Int.tdiv_eq_ediv (by positivity) (by positivity), Int.mul_ediv_cancel _ h3]

theorem mul_thousand_exact (t : Nat) (h : t * 1000 < 2 ^ 53) :
    F64.trunc (F64.mul (F64.ofInt (t : Int)) (F64.lit 1000 1)) = some ((t : Int) * 1000) := by
  by_cases h0 : t = 0
  · subst h0
    decide!
  · have ht : 0 < t := Nat.pos_of_ne_zero h0
    have ht53 : t < 2 ^ 53 := by omega
    have hlit : F64.lit 1000 1 = F64.fin (1000 * 2 ^ 43) (-43) := by decide
    have hof : F64.ofInt (t : Int) =
        F64.fin ((t * 2 ^ (52 - ilog2 t) : Nat) : Int) ((ilog2 t : Int) - 52) := by
      have := round_mul_exact t 1 ht ht53 (by norm_num)
      simpa [F64.ofInt] using this
    have hL : ilog2 t ≤ 52 := ilog2_le_of_lt t 52 h0 ht53
    rw [hlit, hof]
    simp only [F64.mul, F64.roundDyadic]
    generalize ilog2 t = L at *
    have e1 : ((L : Int) - 52 + -43).toNat = 0 := by omega
    have e2 : (-((L : Int) - 52 + -43)).toNat = 95 - L := by omega
    rw [e1, e2]
    have e3 : ((t * 2 ^ (52 - L) : Nat) : Int) * (1000 * 2 ^ 43) * 2 ^ 0 =
        (((t * 1000) * 2 ^ (95 - L) : Nat) : Int) := by
      have : (2 : Int) ^ (95 - L) = 2 ^ (52 - L) * 2 ^ 43 := by
        rw [← pow_add]; congr 1; omega
      push_cast
      rw [this]; ring
    rw [e3, round_mul_exact (t * 1000) (2 ^ (95 - L)) (by omega) h (Nat.pow_pos (by norm_num))]
    have hL2 : ilog2 (t * 1000) ≤ 52 := ilog2_le_of_lt (t * 1000) 52 (by omega) h
    have e4 : ((ilog2 (t * 1000) : Int) - 52) = -((52 - ilog2 (t * 1000) : Nat) : Int) := by
      omega
    rw [e4, trunc_scaled]
    simp

/-! ## The binary64 model meets its specification, and further lemmas on the handlers -/

theorem sendGPSLocationData_build (B B' : Build) (K : GpsApi) (W : GPSLocationSchema)
    (s s' : SensorService) (hd : s.gpsData_ = s'.gpsData_)
    (hB : B.sumOfSquares s'.gpsData_.fix.epx s'.gpsData_.fix.epy =
      B'.sumOfSquares s'.gpsData_.fix.epx s'.gpsData_.fix.epy) :
    (sendGPSLocationData B K W s).2 = (sendGPSLocationData B' K W s').2 := by
  simp only [sendGPSLocationData, hd, hB]

theorem sendGPSLocationData_data (B : Build) (K : GpsApi) (W : GPSLocationSchema)
    (s s' : SensorService) (hd : s.gpsData_ = s'.gpsData_) :
    (sendGPSLocationData B K W s).2 = (sendGPSLocationData B K W s').2 :=
  sendGPSLocationData_build B B K W s s' hd rfl

theorem sensorPolling_gpsData (B : Build) (K : GpsApi) (W : GPSLocationSchema) (env : Env)
    (s : SensorService) (hrun : s.stopPolling = false) :
    (sensorPolling B K W env s).1.gpsData_ =
      if s.gpsEnabled_ = true ∧ env.gps_waiting = true then env.gps_read.2 else s.gpsData_ := by
  simp only [sensorPolling, hrun]
  simp only [Bool.not_false, if_true]
  split_ifs <;> simp_all [sendNightData_state, sendGPSLocationData_state]

theorem sensorPolling_gpsEnabled (B : Build) (K : GpsApi) (W : GPSLocationSchema) (env : Env)
    (s : SensorService) : (sensorPolling B K W env s).1.gpsEnabled_ = s.gpsEnabled_ := by
  cases hs : s.stopPolling
  · simp only [sensorPolling, hs]
    simp only [Bool.not_false, if_true]
    split_ifs <;> simp_all [sendNightData_state, sendGPSLocationData_state]
  · simp [sensorPolling, hs]

theorem sensorPolling_locationEvents (B : Build) (K : GpsApi) (W : GPSLocationSchema)
    (env : Env) (s : SensorService) (hrun : s.stopPolling = false) :
    locationEvents (sensorPolling B K W env s).2 =
      if s.gpsEnabled_ = true ∧ env.gps_waiting = true ∧ 0 < env.gps_read.1 ∧
          env.gps_read.2.status ≠ K.STATUS_NO_FIX ∧
          (env.gps_read.2.fix.mode = K.MODE_2D ∨ env.gps_read.2.fix.mode = K.MODE_3D) ∧
          env.gps_read.2.set &&& K.TIME_SET ≠ 0 ∧
          env.gps_read.2.set &&& K.LATLON_SET ≠ 0 then
        locationEvents (sendGPSLocationData B K W { s with gpsData_ := env.gps_read.2 }).2
      else [] := by
  have hd : ∀ t : SensorService, t.gpsData_ = env.gps_read.2 →
      locationEvents (sendGPSLocationData B K W t).2 =
        locationEvents (sendGPSLocationData B K W { s with gpsData_ := env.gps_read.2 }).2 := by
    intro t ht
    rw [sendGPSLocationData_data B K W t { s with gpsData_ := env.gps_read.2 } ht]
  simp only [sensorPolling, hrun]
  simp only [Bool.not_false, if_true]
  split_ifs with h1 h2 h3 h4 h5 <;>
    simp_all [sendNightData_out, sendNightData_state, locationEvents, Effect.location]

/-! ## The claims -/

/-- C1. Every sensor start request is answered by exactly one start response with
status OK followed by exactly one `receive`; when that send succeeds, the continuation
sends exactly one indication with driving status UNRESTRICTED for DRIVING_STATUS,
exactly one indication with the then current `isNight` for NIGHT_DATA, and nothing for
any other type (LOCATION or an unrecognised value). `s'` is the state at the time the
promise is resolved. -/
theorem onSensorStartRequest_response (request : SensorStartRequestMessage)
    (s s' : SensorService) :
    ∃ promise : Then,
      onSensorStartRequest request s =
        (s, [Effect.sendSensorStartResponse { status := Status.OK } promise, Effect.receive]) ∧
      (resolve promise s').2 =
        (match request.sensor_type with
         | SensorType.DRIVING_STATUS =>
             [Effect.sendSensorEventIndication
               { driving_status := [{ status := DrivingStatusEnum.UNRESTRICTED }] } Then.nothing]
         | SensorType.NIGHT_DATA =>
             [Effect.sendSensorEventIndication
               { night_mode := [{ is_night := s'.isNight }] } Then.nothing]
         | SensorType.LOCATION => []
         | SensorType.other _ => []) := by
  rcases request with ⟨t⟩
  cases t <;>
    simp [onSensorStartRequest, resolve, sendDrivingStatusUnrestricted, sendNightData]
  all_goals (cases h : s'.isNight <;> cases h2 : s'.firstRun <;> simp)

/-- C3. A poll tick that runs (stop flag clear) emits a location event if and only if
the adapter is connected, `gps_waiting` reports data, `gps_read` returns a value > 0,
and the data just read has a status other than STATUS_NO_FIX, mode 2-D or 3-D, and both
the TIME_SET and LATLON_SET bits in its mask; it never emits more than one. -/
theorem sensorPolling_location_iff (B : Build) (K : GpsApi) (W : GPSLocationSchema) (env : Env)
    (s : SensorService) (hrun : s.stopPolling = false) :
    (locationEvents (sensorPolling B K W env s).2 ≠ [] ↔
      (s.gpsEnabled_ = true ∧ env.gps_waiting = true ∧ 0 < env.gps_read.1 ∧
        env.gps_read.2.status ≠ K.STATUS_NO_FIX ∧
        (env.gps_read.2.fix.mode = K.MODE_2D ∨ env.gps_read.2.fix.mode = K.MODE_3D) ∧
        env.gps_read.2.set &&& K.TIME_SET ≠ 0 ∧
        env.gps_read.2.set &&& K.LATLON_SET ≠ 0)) ∧
    (locationEvents (sensorPolling B K W env s).2).length ≤ 1 := by
  have hg := sendGPSLocationData_one B K W
  have hne : ∀ t : SensorService, locationEvents (sendGPSLocationData B K W t).2 ≠ [] := by
    intro t h
    have := hg t
    rw [h] at this
    simp at this
  simp only [sensorPolling, hrun]
  simp only [Bool.not_false, if_true]
  split_ifs with h1 h2 h3 h4 h5 <;>
    simp_all [sendNightData_out, sendNightData_state, locationEvents, Effect.location]

/-- Witness for C3: the polling service, connected, reads `fixSample` and emits a
location event. -/
theorem sensorPolling_location_iff_witness :
    polling.stopPolling = false ∧
    locationEvents (sensorPolling plainBuild libgps aasdkSchema envDay polling).2 ≠ [] :=
  ⟨rfl, (sensorPolling_location_iff plainBuild libgps aasdkSchema envDay polling rfl).1.2 (by decide)⟩

/-- C4. In a poll tick that runs, a night-mode event is emitted if and only if the value
just read differs from `previous` and `firstRun` is already cleared; the event then
carries the value read and `previous` becomes that value (otherwise `previous` is
kept).  Over any sequence of Mode Flag reads in consecutive ticks the events emitted are
therefore exactly the changes with respect to `previous`, and none while `firstRun` is
set.  In every state reached from one with `firstRun` set, once `firstRun` is cleared
and while the loop is live, `previous` is the value of the last night-mode event sent. -/
theorem sensorPolling_night_event_iff (B : Build) (K : GpsApi) (W : GPSLocationSchema) (env : Env)
    (envs : List Env) (s : SensorService) (ops : List Op) (s0 : SensorService)
    (hrun : s.stopPolling = false) (hfirst : s0.firstRun = true) :
    (nightEvents (sensorPolling B K W env s).2 ≠ [] ↔
      (env.is_file_exist ≠ s.previous ∧ s.firstRun = false)) ∧
    nightEvents (sensorPolling B K W env s).2 =
      (if env.is_file_exist ≠ s.previous ∧ s.firstRun = false then [env.is_file_exist]
       else []) ∧
    (sensorPolling B K W env s).1.previous =
      (if env.is_file_exist ≠ s.previous ∧ s.firstRun = false then env.is_file_exist
       else s.previous) ∧
    nightEvents (ticks B K W envs s).2 =
      (if s.firstRun then [] else specNightEvents s.previous (envs.map Env.is_file_exist)) ∧
    ((run B K W ops s0).1.stopPolling = false → (run B K W ops s0).1.firstRun = false →
      (nightEvents (run B K W ops s0).2).getLast? = some (run B K W ops s0).1.previous) := by
  refine ⟨?_, sensorPolling_nightEvents B K W env s hrun, sensorPolling_previous B K W env s hrun,
    ticks_nightEvents B K W envs s hrun, ?_⟩
  · rw [sensorPolling_nightEvents B K W env s hrun]
    split_ifs with h <;> simp [h]
  · intro h1 h2
    have := Inv_run B K W ops s0 [] (Inv_init s0 hfirst)
    simp only [List.nil_append] at this
    exact (this.2.2 h2 h1).2

/-- Witness for C4: the marker appears while `previous` is false and `firstRun` is
cleared. -/
theorem sensorPolling_night_event_iff_witness :
    pollingLater.stopPolling = false ∧ polling.firstRun = true ∧
    nightEvents (sensorPolling plainBuild libgps aasdkSchema envNight pollingLater).2 =
      (if envNight.is_file_exist ≠ pollingLater.previous ∧ pollingLater.firstRun = false then
        [envNight.is_file_exist]
       else []) :=
  ⟨rfl, rfl,
    (sensorPolling_night_event_iff plainBuild libgps aasdkSchema envNight [envNight, envDay] pollingLater
      [Op.resolve Then.sendNightData, Op.timer envNight] polling rfl rfl).2.1⟩

/-- C5. Once `stop` has written the stop flag, every later invocation of
`sensorPolling`, whatever steps ran in between, changes nothing and makes no call: it
sends no night-mode or location event and arms no wait.  No step of any later run arms
the timer or sends a location event, so the timer invokes `sensorPolling` at most as
many times as waits were pending when the flag was written (`p`; one in a single chain
of ticks). -/
theorem stop_flag_halts_polling (B : Build) (K : GpsApi) (W : GPSLocationSchema) (s0 : SensorService)
    (ops : List Op) (env : Env) (p : Nat)
    (hfeasible : feasible B K W p ops (stopFlag s0) = true) :
    (stop s0).1.stopPolling = true ∧
    sensorPolling B K W env (run B K W ops (stopFlag s0)).1 = ((run B K W ops (stopFlag s0)).1, []) ∧
    sensorPolling B K W env (stop s0).1 = ((stop s0).1, []) ∧
    waits (run B K W ops (stopFlag s0)).2 = 0 ∧
    expiries (run B K W ops (stopFlag s0)).2 = [] ∧
    locationEvents (run B K W ops (stopFlag s0)).2 = [] ∧
    timerRuns ops ≤ p := by
  have h0 : (stopFlag s0).stopPolling = true := rfl
  have h1 : (stop s0).1.stopPolling = true := by
    simp only [stop, stopHandler]
    split_ifs <;> simp [stopFlag]
  obtain ⟨q1, q2, q3⟩ := run_quiet B K W ops _ h0
  exact ⟨h1, sensorPolling_stopped B K W env _ (run_stopPolling B K W ops _ h0),
    sensorPolling_stopped B K W env _ h1, q1, q2, q3, timerRuns_le B K W ops p _ h0 hfeasible⟩

/-- Witness for C5: one wait is pending when the flag is written; it completes and the
stop handler runs. -/
theorem stop_flag_halts_polling_witness :
    feasible plainBuild libgps aasdkSchema 1 [Op.timer envDay, Op.stopHandler] (stopFlag polling) = true ∧
    timerRuns [Op.timer envDay, Op.stopHandler] ≤ 1 :=
  ⟨by decide,
    (stop_flag_halts_polling plainBuild libgps aasdkSchema polling [Op.timer envDay, Op.stopHandler]
      envDay 1 (by decide)).2.2.2.2.2.2⟩

/-- Counterexample to C6: the idle service is started, stopped and started again; the
second `start` only re-enables the gpsd stream and re-arms `receive`: it runs no tick,
arms no wait and leaves the stop flag set. -/
theorem restart_arms_no_timer :
    (start plainBuild libgps aasdkSchema envNight
        (stop (start plainBuild libgps aasdkSchema envDay idle).1).1).2 =
      [Effect.gps_stream_enable, Effect.receive] ∧
    expiries (start plainBuild libgps aasdkSchema envNight
        (stop (start plainBuild libgps aasdkSchema envDay idle).1).1).2 ≠ [250] ∧
    (start plainBuild libgps aasdkSchema envNight
        (stop (start plainBuild libgps aasdkSchema envDay idle).1).1).1.stopPolling = true := by
  decide!

/-- C6 (amended). A `start` after `stop` does not begin a fresh chain of ticks: `stop`
leaves the stop flag set and nothing clears it, so for every state reached by `start`
followed by `stop` a subsequent `start` runs no tick (no night-mode or location event,
no timer call), only re-enabling the gpsd stream when `gps_open` succeeds and re-arming
`receive`.  A `start` on a service whose stop flag is clear (`t`) does run one tick
immediately and arms the next one after 250 ms.  That tick re-reads the Mode Flag:
`isNight` becomes the value read and a night-mode event carrying it is sent exactly when
it differs from `previous` and `firstRun` is cleared.  It samples the location adapter:
when the adapter is connected (`gps_open` succeeded or it was connected before) and
`gps_waiting` reports data, the data `gps_read` delivers is stored, and a location event
built from it is sent exactly when `gps_read` returned a value > 0 and the data has a
status other than STATUS_NO_FIX, mode 2-D or 3-D and the TIME_SET and LATLON_SET bits;
otherwise the stored data is kept and no location event is sent. -/
theorem start_after_stop_is_inert (B : Build) (K : GpsApi) (W : GPSLocationSchema) (env1 env2 : Env)
    (s t : SensorService) (hclear : t.stopPolling = false) :
    (start B K W env2 (stop (start B K W env1 s).1).1).2 =
      (if env2.gps_open ≠ 0 then [] else [Effect.gps_stream_enable]) ++ [Effect.receive] ∧
    (start B K W env2 (stop (start B K W env1 s).1).1).1.stopPolling = true ∧
    expiries (start B K W env2 t).2 = [250] ∧
    waits (start B K W env2 t).2 = 1 ∧
    (start B K W env2 t).1.isNight = env2.is_file_exist ∧
    (start B K W env2 t).1.stopPolling = false ∧
    nightEvents (start B K W env2 t).2 =
      (if env2.is_file_exist ≠ t.previous ∧ t.firstRun = false then [env2.is_file_exist]
       else []) ∧
    (start B K W env2 t).1.gpsEnabled_ = (decide (env2.gps_open = 0) || t.gpsEnabled_) ∧
    (start B K W env2 t).1.gpsData_ =
      (if (env2.gps_open = 0 ∨ t.gpsEnabled_ = true) ∧ env2.gps_waiting = true then
        env2.gps_read.2
       else t.gpsData_) ∧
    locationEvents (start B K W env2 t).2 =
      (if (env2.gps_open = 0 ∨ t.gpsEnabled_ = true) ∧ env2.gps_waiting = true ∧
          0 < env2.gps_read.1 ∧ env2.gps_read.2.status ≠ K.STATUS_NO_FIX ∧
          (env2.gps_read.2.fix.mode = K.MODE_2D ∨ env2.gps_read.2.fix.mode = K.MODE_3D) ∧
          env2.gps_read.2.set &&& K.TIME_SET ≠ 0 ∧
          env2.gps_read.2.set &&& K.LATLON_SET ≠ 0 then
        locationEvents (sendGPSLocationData B K W { t with gpsData_ := env2.gps_read.2 }).2
       else []) ∧
    (locationEvents (sendGPSLocationData B K W { t with gpsData_ := env2.gps_read.2 }).2).length
      = 1 := by
  have h1 := stop_stopPolling (start B K W env1 s).1
  have hp : (startPre env2 t).stopPolling = false := by simp [startPre, hclear]
  have hen : (startPre env2 t).gpsEnabled_ = (decide (env2.gps_open = 0) || t.gpsEnabled_) := by
    by_cases h : env2.gps_open = 0 <;> simp [startPre, h]
  refine ⟨?_, ?_, ?_, ?_, ?_, ?_, ?_, ?_, ?_, ?_, sendGPSLocationData_one B K W _⟩
  · rw [start_stopped B K W env2 _ h1]
  · rw [start_stopped B K W env2 _ h1]
    simp [startPre, h1]
  · rw [start_eq]
    simp only [expiries_append, (sensorPolling_timer B K W env2 _ hp).1]
    split_ifs <;> simp [expiries, Effect.expiry]
  · rw [start_eq]
    simp only [waits_append, (sensorPolling_timer B K W env2 _ hp).2]
    split_ifs <;> simp [waits, Effect.wait]
  · rw [start_eq]
    exact sensorPolling_isNight B K W env2 _ hp
  · rw [start_eq]
    simp only [sensorPolling_stopPolling]
    exact hp
  · rw [start_eq]
    simp only [nightEvents_append, sensorPolling_nightEvents B K W env2 _ hp]
    have e1 : (startPre env2 t).previous = t.previous := rfl
    have e2 : (startPre env2 t).firstRun = t.firstRun := rfl
    rw [e1, e2]
    split_ifs <;> simp [nightEvents, Effect.night]
  · rw [start_eq]
    simp only [sensorPolling_gpsEnabled]
    exact hen
  · rw [start_eq]
    simp only [sensorPolling_gpsData B K W env2 _ hp, hen]
    have e1 : (startPre env2 t).gpsData_ = t.gpsData_ := rfl
    rw [e1]
    by_cases h : env2.gps_open = 0 <;> simp [h]
  · rw [start_eq]
    simp only [locationEvents_append]
    rw [sensorPolling_locationEvents B K W env2 _ hp]
    have e1 : (sendGPSLocationData B K W
          { startPre env2 t with gpsData_ := env2.gps_read.2 }).2 =
        (sendGPSLocationData B K W { t with gpsData_ := env2.gps_read.2 }).2 :=
      sendGPSLocationData_data B K W _ _ rfl
    rw [e1]
    simp only [hen]
    by_cases h : env2.gps_open = 0 <;> simp [h, locationEvents, Effect.location]

/-- Witness for C6 (amended): the idle service has its stop flag clear; its first
`start` connects to gpsd, arms the timer with 250 ms and sends one location event, built
from the fix `gps_read` delivered. -/
theorem start_after_stop_is_inert_witness :
    idle.stopPolling = false ∧
    expiries (start plainBuild libgps aasdkSchema envNight idle).2 = [250] ∧
    locationEvents (start plainBuild libgps aasdkSchema envNight idle).2 =
      locationEvents (sendGPSLocationData plainBuild libgps aasdkSchema
        { idle with gpsData_ := envNight.gps_read.2 }).2 :=
  ⟨rfl, (start_after_stop_is_inert plainBuild libgps aasdkSchema envDay envNight idle idle rfl).2.2.1,
    ((start_after_stop_is_inert plainBuild libgps aasdkSchema envDay envNight idle idle
      rfl).2.2.2.2.2.2.2.2.2.1).trans (if_pos (by decide))⟩

/-- C7. For every discovery response, `fillFeatures` appends exactly one channel
descriptor at the end, carrying this channel's id and a sensor channel listing
DRIVING_STATUS, LOCATION, NIGHT_DATA in that order; the descriptors already present
are kept as they were and the service state is not modified. -/
theorem fillFeatures_appends_descriptor (s : SensorService)
    (response : ServiceDiscoveryResponse) (hid : s.channelId < 2 ^ 32) :
    (fillFeatures s response).1 = s ∧
    (fillFeatures s response).2.channels =
      response.channels ++
        [{ channel_id := some s.channelId,
           sensor_channel := some
             { sensors := [{ type := SensorType.DRIVING_STATUS },
                           { type := SensorType.LOCATION },
                           { type := SensorType.NIGHT_DATA }] } }] := by
  have h : s.channelId % 4294967296 = s.channelId := Nat.mod_eq_of_lt (by simpa using hid)
  simp [fillFeatures, h]

/-- Witness for C7: the idle service, on channel 2, fills a response that already holds
one descriptor. -/
theorem fillFeatures_appends_descriptor_witness :
    (2 : Nat) < 2 ^ 32 ∧
    (fillFeatures idle ⟨[{ channel_id := some 1 }]⟩).2.channels =
      [{ channel_id := some 1 },
       { channel_id := some 2,
         sensor_channel := some
           { sensors := [{ type := SensorType.DRIVING_STATUS },
                         { type := SensorType.LOCATION },
                         { type := SensorType.NIGHT_DATA }] } }] :=
  ⟨by decide, (fillFeatures_appends_descriptor idle _ (by decide)).2⟩

/-- Counterexample to C8: a fix taken 1.5 s after the epoch (`tv_sec = 1`,
`tv_nsec = 500000000`) is sent with timestamp 1000, not 1500. -/
theorem timestamp_ignores_nanoseconds :
    fixSample.fix.time = { tv_sec := 1, tv_nsec := 500000000 } ∧
    (locationEvents (sendGPSLocationData plainBuild libgps aasdkSchema polling).2).map
        GPSLocation.timestamp = [some (CInt.val 1000)] ∧
    (locationEvents (sendGPSLocationData plainBuild libgps aasdkSchema polling).2).map
        GPSLocation.timestamp ≠ [some (CInt.val 1500)] := by
  decide!

/-- C8 (amended). The timestamp of the location event is the whole-second part
`tv_sec` of the fix time times 1000; the sub-second part `tv_nsec` does not enter it.
This holds for every fix with `0 ≤ tv_sec`, `tv_sec * 1000 < 2^53` (the product is then
exact in binary64) and `tv_sec * 1000` within the range of the timestamp field. -/
theorem timestamp_whole_seconds (B : Build) (K : GpsApi) (W : GPSLocationSchema) (s : SensorService)
    (hsec : 0 ≤ s.gpsData_.fix.time.tv_sec)
    (hexact : s.gpsData_.fix.time.tv_sec * 1000 < 2 ^ 53)
    (hmin : W.timestamp.min ≤ s.gpsData_.fix.time.tv_sec * 1000)
    (hmax : s.gpsData_.fix.time.tv_sec * 1000 ≤ W.timestamp.max) :
    (locationEvents (sendGPSLocationData B K W s).2).map GPSLocation.timestamp =
      [some (CInt.val (s.gpsData_.fix.time.tv_sec * 1000))] := by
  obtain ⟨t, ht⟩ := Int.eq_ofNat_of_zero_le hsec
  have h53 : t * 1000 < 2 ^ 53 := by
    have : ((t * 1000 : Nat) : Int) < ((2 ^ 53 : Nat) : Int) := by
      rw [ht] at hexact; push_cast; exact hexact
    exact Int.ofNat_lt.1 this
  have hconv : conv W.timestamp (F64.mul (F64.ofInt s.gpsData_.fix.time.tv_sec) (F64.lit 1000 1)) =
      CInt.val (s.gpsData_.fix.time.tv_sec * 1000) := by
    unfold conv
    rw [ht, mul_thousand_exact t h53]
    rw [ht] at hmin hmax
    simp [hmin, hmax]
  by_cases h1 : s.gpsData_.set &&& K.ALTITUDE_SET = 0 <;>
  by_cases h2 : s.gpsData_.set &&& K.SPEED_SET = 0 <;>
  by_cases h3 : s.gpsData_.set &&& K.TRACK_SET = 0 <;>
  simp [sendGPSLocationData, locationEvents, Effect.location, h1, h2, h3, hconv]

/-- Witness for C8: the fix of `polling`, taken at `tv_sec = 1`. -/
theorem timestamp_whole_seconds_witness :
    (0 : Int) ≤ polling.gpsData_.fix.time.tv_sec ∧
    polling.gpsData_.fix.time.tv_sec * 1000 < 2 ^ 53 ∧
    aasdkSchema.timestamp.min ≤ polling.gpsData_.fix.time.tv_sec * 1000 ∧
    polling.gpsData_.fix.time.tv_sec * 1000 ≤ aasdkSchema.timestamp.max ∧
    (locationEvents (sendGPSLocationData plainBuild libgps aasdkSchema polling).2).map
        GPSLocation.timestamp = [some (CInt.val (polling.gpsData_.fix.time.tv_sec * 1000))] :=
  ⟨by decide, by decide, by decide, by decide,
    timestamp_whole_seconds plainBuild libgps aasdkSchema polling (by decide) (by decide) (by decide)
      (by decide)⟩

/-- C9. Every call of `sendNightData`, whatever triggered it, sends the current
`isNight` and leaves `firstRun` false; the call that finds `firstRun` set also sets
`previous` to the value sent, every later call leaves `previous` as it was.  Over any
run, `firstRun` is set at the end exactly when it was set initially and no night-mode
event has been sent: it is cleared by the first such send and never set again. -/
theorem firstRun_cleared_once (B : Build) (K : GpsApi) (W : GPSLocationSchema) (s : SensorService)
    (ops : List Op) :
    (sendNightData s).1.firstRun = false ∧
    (sendNightData s).1.previous = (if s.firstRun then s.isNight else s.previous) ∧
    nightEvents (sendNightData s).2 = [s.isNight] ∧
    resolve Then.sendNightData s = sendNightData s ∧
    (run B K W ops s).1.firstRun = (s.firstRun && (nightEvents (run B K W ops s).2).isEmpty) := by
  refine ⟨?_, ?_, ?_, rfl, run_firstRun B K W ops s⟩
  · rw [sendNightData_state]; cases h : s.firstRun <;> simp [h]
  · rw [sendNightData_state]; cases h : s.firstRun <;> simp [h]
  · rw [sendNightData_out]; simp [nightEvents, Effect.night]

/-- Counterexample to C10: the idle service is started while the marker exists,
stopped, and started again after the marker has been removed; `isNight` is still
true. -/
theorem restart_keeps_isNight :
    envDay.is_file_exist = false ∧
    (start plainBuild libgps aasdkSchema envDay
        (stop (start plainBuild libgps aasdkSchema envNight idle).1).1).1.isNight = true := by
  decide!

/-- C10 (amended). After `start`, `isNight` is true if and only if the marker exists
whenever the stop flag was clear (the initial tick then re-reads the Mode Flag); when
the stop flag is set, as on a `start` after `stop`, the tick does not run and `isNight`
is true if and only if it was already true or the marker exists. -/
theorem start_isNight (B : Build) (K : GpsApi) (W : GPSLocationSchema) (env : Env) (s : SensorService) :
    (start B K W env s).1.isNight =
      (if s.stopPolling then (s.isNight || env.is_file_exist) else env.is_file_exist) := by
  cases h : s.stopPolling
  · have hp : (startPre env s).stopPolling = false := by simp [startPre, h]
    rw [start_eq]
    simpa using sensorPolling_isNight B K W env _ hp
  · rw [start_stopped B K W env s h]
    cases h1 : env.is_file_exist <;> cases h2 : s.isNight <;> simp [startPre, h1, h2]

end SensorService
